import Mathlib

/-!
Verification development for the `ccg-platform` SCAT geographic-assignment
pipeline (`geoassign/scat/pipeline.py` and `geoassign/utils/credible_region.py`).

The Python source is shallowly embedded:
* files are lists of their lines (without trailing newlines);
* Python `int`/`float` string parsing is modelled by executable parsers over
  ASCII text (`pyInt` into `Int`, `pyFloat` into `Rat`); the IEEE special
  tokens `inf`/`nan` and non-ASCII digits lie outside the model;
* exceptions become `Except` values, `numpy` floating point becomes real
  arithmetic, and the external SCAT process is an input (`ProcResult`).
-/

namespace CcgPlatform

/-- Model of Python `s.strip()` on ASCII text: remove leading and trailing
whitespace (implemented structurally on the character list so that proofs
can evaluate it). -/
def pyStrip (s : String) : String :=
  String.mk (((s.toList.dropWhile Char.isWhitespace).reverse.dropWhile
    Char.isWhitespace).reverse)

/-- Model of Python `s.split(sep)` for a one-character separator (the source
only splits on `"\t"`, `":"`, `"/"` and `"|"`): keeps empty pieces, and
`"".split(sep) == [""]`. -/
def pySplitSep (sep : Char) (s : String) : List String :=
  (s.toList.splitOn sep).map String.mk

/-- Model of Python `s.split()` (no argument): split on runs of whitespace,
dropping empty pieces. -/
def pySplitWs (s : String) : List String :=
  ((s.toList.splitOnP Char.isWhitespace).filter (fun t => t ≠ [])).map String.mk

/-- Model of Python `s.startswith(pre)`. -/
def pyStartsWith (s pre : String) : Bool :=
  pre.toList.isPrefixOf s.toList

/-- Model of Python `c in s` for a single character. -/
def pyContainsChar (s : String) (c : Char) : Bool :=
  s.toList.contains c

/-- Model of Python `sep.join(l)`. -/
def pyJoin (sep : String) : List String → String
  | [] => ""
  | [x] => x
  | x :: y :: rest => x ++ sep ++ pyJoin sep (y :: rest)

/-- One step of validating a Python integer-literal digit run: digits
optionally separated by single underscores, starting and ending with a
digit.  `expectDigit` is `true` when the next character must be a digit. -/
def digitsRun : Bool → List Char → Bool
  | expectDigit, [] => !expectDigit
  | expectDigit, c :: rest =>
    if expectDigit then c.isDigit && digitsRun false rest
    else if c = '_' then digitsRun true rest
    else c.isDigit && digitsRun false rest

/-- A valid (possibly underscore-separated) nonempty digit group, as accepted
inside Python `int()`/`float()` literals. -/
def validDigitGroup (cs : List Char) : Bool := digitsRun true cs

/-- Numeric value of a digit group, ignoring underscores. -/
def digitsToNat (cs : List Char) : Nat :=
  cs.foldl (fun n c => if c = '_' then n else n * 10 + (c.toNat - 48)) 0

/-- Count of actual digits in a digit group (underscores excluded). -/
def digitCount (cs : List Char) : Nat := (cs.filter (fun c => c ≠ '_')).length

/-- Model of Python `int(s)` on ASCII input: strip whitespace, optional
sign, then a valid digit group.  Returns `none` where Python raises
`ValueError`. -/
def pyInt (s : String) : Option Int :=
  match (pyStrip s).toList with
  | '+' :: rest => if validDigitGroup rest then some (digitsToNat rest) else none
  | '-' :: rest => if validDigitGroup rest then some (-(digitsToNat rest : Int)) else none
  | rest => if validDigitGroup rest then some (digitsToNat rest) else none

/-- Split a character list at the first character satisfying `p`; the second
component is `none` when no such character occurs. -/
def splitAtFirst (p : Char → Bool) : List Char → List Char × Option (List Char)
  | [] => ([], none)
  | c :: rest =>
    if p c then ([], some rest)
    else
      let (a, b) := splitAtFirst p rest
      (c :: a, b)

/-- Model of Python `float(s)` on ASCII decimal literals, with the exact
decimal value kept as a rational: strip whitespace, optional sign, integer
and/or fractional digit groups around an optional point, optional signed
exponent.  Returns `none` where Python raises `ValueError` (the tokens
`inf`/`infinity`/`nan` lie outside this real-valued model). -/
def pyFloat (s : String) : Option ℚ :=
  let cs := (pyStrip s).toList
  let (sign, cs) : ℚ × List Char :=
    match cs with
    | '+' :: r => (1, r)
    | '-' :: r => (-1, r)
    | r => (1, r)
  let (mant, expPart) := splitAtFirst (fun c => c = 'e' || c = 'E') cs
  let (ip, fpOpt) := splitAtFirst (fun c => c = '.') mant
  let mantVal : Option ℚ :=
    match fpOpt with
    | none => if validDigitGroup ip then some (digitsToNat ip : ℚ) else none
    | some fp =>
      if ip = [] then
        if validDigitGroup fp then some ((digitsToNat fp : ℚ) / 10 ^ digitCount fp) else none
      else if fp = [] then
        if validDigitGroup ip then some (digitsToNat ip : ℚ) else none
      else if validDigitGroup ip && validDigitGroup fp then
        some ((digitsToNat ip : ℚ) + (digitsToNat fp : ℚ) / 10 ^ digitCount fp)
      else none
  match mantVal with
  | none => none
  | some m =>
    match expPart with
    | none => some (sign * m)
    | some ec =>
      let (eneg, ed) : Bool × List Char :=
        match ec with
        | '+' :: r => (false, r)
        | '-' :: r => (true, r)
        | r => (false, r)
      if validDigitGroup ed then
        let e := digitsToNat ed
        some (sign * m * (if eneg then 1 / 10 ^ e else (10 : ℚ) ^ e))
      else none

/-- Model of Python `list.index(x)` restricted to present elements
(`fmt.index("GT")` in `_parse_vcf`): index of the first occurrence. -/
def pyIndex (l : List String) (x : String) : Nat :=
  (l.findIdx? (fun t => t = x)).getD l.length

/-- Model of Python `str.capitalize()` on ASCII text: first character
upper-cased, the rest lower-cased. -/
def pyCapitalize (s : String) : String :=
  match s.toList with
  | [] => ""
  | c :: rest => String.mk (c.toUpper :: rest.map Char.toLower)

/-- `SCATPipelineError`: message, machine-readable code, and optional
details / file path / suggestion, exactly the attributes set by
`SCATPipelineError.__init__`. -/
structure SCATPipelineError where
  message : String
  error_code : String
  details : Option String := none
  file_path : Option String := none
  suggestion : Option String := none
  deriving Repr, DecidableEq

namespace SCATPipelineError

/-- The `ERROR_CODES` table of `SCATPipelineError`. -/
def ERROR_CODES (k : String) : String :=
  if k = "MISSING_FILES" then "E001"
  else if k = "INVALID_VCF" then "E002"
  else if k = "INVALID_COORDINATES" then "E003"
  else if k = "SCAT_EXECUTION" then "E004"
  else if k = "GENOTYPE_MISMATCH" then "E005"
  else if k = "FILE_PARSING" then "E006"
  else if k = "PERMISSION_DENIED" then "E007"
  else "E999"

/-- The formatted message built by `SCATPipelineError.__init__` and passed to
`super().__init__` (the constructors below never set an empty-string
optional field, so Python truthiness agrees with `Option`). -/
def full_message (e : SCATPipelineError) : String :=
  "[" ++ e.error_code ++ "] " ++ e.message
    ++ (match e.details with | some d => "\nDetails: " ++ d | none => "")
    ++ (match e.file_path with | some p => "\nFile: " ++ p | none => "")
    ++ (match e.suggestion with | some sg => "\nSuggestion: " ++ sg | none => "")

/-- `SCATPipelineError.invalid_vcf`. -/
def invalid_vcf (vcf_path reason : String) : SCATPipelineError :=
  { message := "Invalid VCF file: " ++ reason
    error_code := ERROR_CODES "INVALID_VCF"
    file_path := some vcf_path
    suggestion := some "Check VCF format and ensure it contains valid genotype data" }

/-- `SCATPipelineError.scat_execution_failed`; `if stdout:` / `if stderr:`
skip empty captured streams. -/
def scat_execution_failed (command : String) (return_code : Int)
    (stdout stderr : String) : SCATPipelineError :=
  let details := "Command: " ++ command ++ "\nReturn code: " ++ toString return_code
  let details := if stdout ≠ "" then details ++ "\nSTDOUT: " ++ stdout else details
  let details := if stderr ≠ "" then details ++ "\nSTDERR: " ++ stderr else details
  { message := "SCAT execution failed"
    error_code := ERROR_CODES "SCAT_EXECUTION"
    details := some details
    suggestion := some "Check SCAT installation and input file formats" }

/-- `SCATPipelineError.genotype_mismatch`. -/
def genotype_mismatch (test_loci training_loci : Nat) : SCATPipelineError :=
  { message := "Genotype data mismatch between test and training samples"
    error_code := ERROR_CODES "GENOTYPE_MISMATCH"
    details := some ("Test sample has " ++ toString test_loci
      ++ " loci, training data has " ++ toString training_loci ++ " loci")
    suggestion := some "Ensure test VCF contains the same SNP panel as training data" }

/-- `SCATPipelineError.file_not_found`. -/
def file_not_found (file_path file_type : String) : SCATPipelineError :=
  { message := pyCapitalize file_type ++ " not found"
    error_code := ERROR_CODES "MISSING_FILES"
    file_path := some file_path
    suggestion := some ("Check that " ++ file_path ++ " exists and is accessible") }

/-- `SCATPipelineError.permission_denied`. -/
def permission_denied (file_path operation : String) : SCATPipelineError :=
  { message := "Permission denied: cannot " ++ operation ++ " file"
    error_code := ERROR_CODES "PERMISSION_DENIED"
    file_path := some file_path
    suggestion := some "Check file permissions and ensure read/write access" }

end SCATPipelineError

/-- The allele-pair extraction attempted inside `_parse_genotype` after the
explicit missing-data check: choose `/` as separator when present (else
`|`), split, and convert both fields with Python `int`; `none` models the
`ValueError`/`TypeError` path. -/
def splitAlleles (gt : String) : Option (Int × Int) :=
  let sep := if pyContainsChar gt '/' then '/' else '|'
  match pySplitSep sep gt with
  | [s1, s2] =>
    match pyInt s1, pyInt s2 with
    | some a, some b => some (a, b)
    | _, _ => none
  | _ => none

/-- `SCATPipeline._parse_genotype`: explicit missing-data tokens and any
parse failure give `(-9, -9)`; otherwise 0-based VCF allele indices become
1-based SCAT codes by adding 1. -/
def parse_genotype (gt : String) : Int × Int :=
  if gt = "./." ∨ gt = "." ∨ gt = "./0" ∨ gt = "0/." then (-9, -9)
  else
    match splitAlleles gt with
    | some (a, b) => (a + 1, b + 1)
    | none => (-9, -9)

instance {ε α : Type _} [DecidableEq ε] [DecidableEq α] : DecidableEq (Except ε α)
  | .ok a, .ok b =>
    if h : a = b then .isTrue (by rw [h])
    else .isFalse (by intro hc; cases hc; exact h rfl)
  | .ok _, .error _ => .isFalse (by intro hc; cases hc)
  | .error _, .ok _ => .isFalse (by intro hc; cases hc)
  | .error e, .error f =>
    if h : e = f then .isTrue (by rw [h])
    else .isFalse (by intro hc; cases hc; exact h rfl)

/-- Per-sample genotype store: Python's `genos` dict is modelled as a total
function from sample name to genotype list (every key the code ever reads
has been initialised to `[]` by the header branch, so the `KeyError` path of
a Python dict is unreachable). -/
def Genos := String → List (Int × Int)

/-- State threaded through the `_parse_vcf` line loop: the current sample
list and the genotype dict. -/
def VcfState := List String × Genos

/-- The per-sample body of the `_parse_vcf` sample loop: at the `(i, s)`
entry of `enumerate(samples)`, skip when the sample's column is absent
(`9 + i >= len(parts)`) or its colon-split field list has no entry at the
`GT` index; otherwise append the decoded genotype under key `s`. -/
def appendGT (parts : List String) (gtIdx : Nat) (g' : Genos)
    (is : Nat × String) : Genos :=
  if parts.length ≤ 9 + is.1 then g'
  else if (pySplitSep ':' (parts.getD (9 + is.1) "")).length ≤ gtIdx then g'
  else fun n =>
    if n = is.2 then
      g' n ++ [parse_genotype
        ((pySplitSep ':' (parts.getD (9 + is.1) "")).getD gtIdx "")]
    else g' n

/-- The per-data-line update of `_parse_vcf` (the `elif` branch): skip lines
with fewer than 9 tab-separated columns or without a `GT` subfield in
`FORMAT`; otherwise run `appendGT` over `enumerate(samples)`. -/
def dataStep (samples : List String) (g : Genos) (l : String) : Genos :=
  let parts := pySplitSep '\t' l
  if parts.length < 9 then g
  else
    let fmt := pySplitSep ':' (parts.getD 8 "")
    if ¬ fmt.contains "GT" then g
    else samples.enum.foldl (appendGT parts (pyIndex fmt "GT")) g

/-- One iteration of the `_parse_vcf` loop body on a raw line: header lines
reset the sample list (raising on an under-long header), data lines run
`dataStep`, comment and blank lines are ignored. -/
def parse_vcf_line (path : String) (st : VcfState) (line : String) :
    Except SCATPipelineError VcfState :=
  let l := pyStrip line
  if pyStartsWith l "#CHROM" then
    let parts := pySplitSep '\t' l
    if parts.length < 9 then
      .error (SCATPipelineError.invalid_vcf path "invalid header: insufficient columns")
    else
      let samples := parts.drop 9
      .ok (samples, fun n => if samples.contains n then [] else st.2 n)
  else if ¬ pyStartsWith l "#" ∧ l ≠ "" then
    .ok (st.1, dataStep st.1 st.2 l)
  else
    .ok st

/-- `SCATPipeline._parse_vcf` on the file's lines: fold the line loop, then
fail when no samples were found.  (Diagnostic messages drop the Python line
numbers; the `FileNotFoundError`/`PermissionError` wrappers concern the
file system and are outside the model, which receives the lines.) -/
def parse_vcf (lines : List String) (path : String) :
    Except SCATPipelineError VcfState := do
  let st ← lines.foldlM (parse_vcf_line path) (([], fun _ => []) : VcfState)
  if st.1 = [] then .error (SCATPipelineError.invalid_vcf path "no samples found")
  else .ok st

/-- Whether `parse_vcf` succeeds on the given lines. -/
def vcfOk (lines : List String) (path : String) : Bool :=
  (parse_vcf lines path).isOk

/-- The sample list returned by `parse_vcf` (empty on failure). -/
def vcfSamples (lines : List String) (path : String) : List String :=
  match parse_vcf lines path with
  | .ok st => st.1
  | .error _ => []

/-- The genotype list `parse_vcf` returns for one sample (empty on failure). -/
def vcfGenosOf (lines : List String) (path : String) (name : String) :
    List (Int × Int) :=
  match parse_vcf lines path with
  | .ok st => st.2 name
  | .error _ => []

/-- `SCATPipeline._write_genotype_block`: the two haplotype rows of one
diploid individual. -/
def write_genotype_block (name : String) (loc_id : Int)
    (gts : List (Int × Int)) : List String :=
  [name ++ " " ++ toString loc_id ++ " "
      ++ pyJoin " " (gts.map fun p => toString p.1),
   name ++ " " ++ toString loc_id ++ " "
      ++ pyJoin " " (gts.map fun p => toString p.2)]

/-- `SCATPipeline._write_genotype_file`: test individual first with location
ID `-1`, then the training individuals with sequential IDs `1..N`. -/
def write_genotype_file (te_name : String) (te_gt : List (Int × Int))
    (tr_samples : List String) (tr_genos : Genos) : List String :=
  write_genotype_block te_name (-1) te_gt
    ++ (tr_samples.enum.map fun is =>
          write_genotype_block is.2 ((is.1 : Int) + 1) (tr_genos is.2)).flatten

/-- `SCATPipeline._write_location_file`: copy each stripped nonempty line of
the training location file unless its first whitespace token equals the test
sample's name. -/
def write_location_file (trainingLoc : List String) (te_name : String) :
    List String :=
  trainingLoc.filterMap fun line =>
    let l := pyStrip line
    if l = "" then none
    else if (pySplitWs l).getD 0 "" = te_name then none
    else some l

/-- The locus count `_convert_vcfs_to_scat_format` reads off the parsed test
VCF: the genotype-list length of its first (only) sample. -/
def testLocusCount (teVcf : List String) (tePath : String) : Nat :=
  (vcfGenosOf teVcf tePath ((vcfSamples teVcf tePath).getD 0 "")).length

/-- The locus count `_convert_vcfs_to_scat_format` reads off the parsed
training VCF: the genotype-list length of its first sample. -/
def trainingLocusCount (trVcf : List String) (trPath : String) : Nat :=
  (vcfGenosOf trVcf trPath ((vcfSamples trVcf trPath).getD 0 "")).length

/-- `SCATPipeline._convert_vcfs_to_scat_format` on the training VCF lines,
test VCF lines and training-location lines: parse both VCFs, require a
single test sample and matching locus counts, and produce the merged
genotype and location files.  (The file-system writes succeed in the model,
so the final `except Exception` re-wrap to `FILE_PARSING` is unreachable;
`SCATPipelineError`s are re-raised as-is.) -/
def convert_vcfs_to_scat_format (trVcf teVcf trLoc : List String)
    (trPath tePath : String) :
    Except SCATPipelineError (List String × List String) := do
  let tr ← parse_vcf trVcf trPath
  let te ← parse_vcf teVcf tePath
  if te.1.length ≠ 1 then
    .error (SCATPipelineError.invalid_vcf tePath
      ("should contain exactly one sample, found " ++ toString te.1.length))
  else
    let te_name := te.1.getD 0 ""
    let te_gt := te.2 te_name
    if te_gt.length ≠ (tr.2 (tr.1.getD 0 "")).length then
      .error (SCATPipelineError.genotype_mismatch te_gt.length
        (tr.2 (tr.1.getD 0 "")).length)
    else
      .ok (write_genotype_file te_name te_gt tr.1 tr.2,
           write_location_file trLoc te_name)

/-- Outcome of the external SCAT process (`subprocess.run` with
`capture_output=True, text=True`). -/
structure ProcResult where
  returncode : Int
  stdout : String
  stderr : String
  deriving Repr, DecidableEq

/-- The argument list `_run_scat` builds (`niter`, `nthin` and `nburn` are
the literal `"100"` defaults). -/
def scat_cmd (scat_exec grid_file geno_file loc_file output_dir : String)
    (num_snps : Nat) : List String :=
  [scat_exec, "-A", "1", "1", "-g", grid_file, geno_file, loc_file,
   output_dir, toString num_snps, "100", "100", "100"]

/-- `SCATPipeline._run_scat`: with `check=True`, a non-zero exit raises
`CalledProcessError`, wrapped into `scat_execution_failed` with the joined
command line, exit code and captured streams. -/
def run_scat (scat_exec grid_file : String) (num_snps : Nat)
    (geno_file loc_file output_dir : String) (proc : ProcResult) :
    Except SCATPipelineError Unit :=
  if proc.returncode ≠ 0 then
    .error (SCATPipelineError.scat_execution_failed
      (pyJoin " " (scat_cmd scat_exec grid_file geno_file loc_file output_dir num_snps))
      proc.returncode proc.stdout proc.stderr)
  else .ok ()

/-- The re-wrap at the top of `SCATPipeline.run`: `except Exception as e`
builds a fresh error with the `UNKNOWN` code whose message embeds `str(e)`
(which, by `__str__`, is the original `message` attribute only). -/
def wrap_unknown (e : SCATPipelineError) : SCATPipelineError :=
  { message := "Pipeline execution failed: " ++ e.message
    error_code := SCATPipelineError.ERROR_CODES "UNKNOWN" }

/-- `SCATPipeline.run`: the missing-test-file check precedes the `try`
block; everything raised inside the `try` — conversion errors and SCAT
execution errors alike — is caught by `except Exception` and re-wrapped
with `wrap_unknown`.  `testExists` models `Path(test_vcf).exists()` and
`proc` the external process outcome. -/
def pipeline_run (testExists : Bool) (trVcf teVcf trLoc : List String)
    (trPath tePath : String) (scat_exec grid_file output_dir : String)
    (num_snps : Nat) (proc : ProcResult) : Except SCATPipelineError String :=
  if ¬ testExists then
    .error (SCATPipelineError.file_not_found tePath "VCF")
  else
    let body : Except SCATPipelineError String := do
      let _ ← convert_vcfs_to_scat_format trVcf teVcf trLoc trPath tePath
      let _ ← run_scat scat_exec grid_file num_snps
        (output_dir ++ "/merged_genotype.txt")
        (output_dir ++ "/merged_location.txt") output_dir proc
      pure output_dir
    match body with
    | .ok d => .ok d
    | .error e => .error (wrap_unknown e)

/-- `samples.mean(axis=0)` for an (N, 2) sample array, over the reals. -/
noncomputable def sampleMean (samples : List (ℝ × ℝ)) : ℝ × ℝ :=
  ((samples.map Prod.fst).sum / samples.length,
   (samples.map Prod.snd).sum / samples.length)

/-- `np.cov(samples.T)` for an (N, 2) sample array: the 2×2 sample
covariance with the default `ddof=1`, recorded as `(cxx, cxy, cyy)` since
the matrix is symmetric. -/
noncomputable def sampleCov (samples : List (ℝ × ℝ)) : ℝ × ℝ × ℝ :=
  let n : ℝ := samples.length
  let m := sampleMean samples
  ((samples.map fun p => (p.1 - m.1) ^ 2).sum / (n - 1),
   (samples.map fun p => (p.1 - m.1) * (p.2 - m.2)).sum / (n - 1),
   (samples.map fun p => (p.2 - m.2) ^ 2).sum / (n - 1))

/-- `np.linalg.det` of the symmetric 2×2 matrix `(cxx, cxy, cyy)`. -/
noncomputable def covDet (c : ℝ × ℝ × ℝ) : ℝ := c.1 * c.2.2 - c.2.1 ^ 2

/-- `np.linspace(a, b, n)`: `n` evenly spaced points from `a` to `b`, both
endpoints included. -/
noncomputable def linspace (a b : ℝ) (n : ℕ) : List ℝ :=
  (List.range n).map fun i : ℕ => a + (b - a) * (i : ℝ) / ((n : ℝ) - 1)

/-- `scipy.stats.chi2.ppf(p, df=2)`: the χ² quantile with two degrees of
freedom has the closed form `-2·log(1-p)`. -/
noncomputable def chi2_ppf_df2 (p : ℝ) : ℝ := -2 * Real.log (1 - p)

/-- `np.linalg.eigh` on the symmetric 2×2 matrix `(a, b, c)` (i.e.
`[[a, b], [b, c]]`): eigenvalues in ascending order together with matching
unit eigenvectors (columns of the returned basis).  The eigenvector sign
and degenerate-basis conventions of LAPACK are not observable in any
property proved here; the closed form below fixes one choice. -/
noncomputable def eigh2 (a b c : ℝ) : (ℝ × ℝ) × ((ℝ × ℝ) × (ℝ × ℝ)) :=
  if b = 0 then
    if a ≤ c then ((a, c), ((1, 0), (0, 1))) else ((c, a), ((0, 1), (1, 0)))
  else
    let d := Real.sqrt ((a - c) ^ 2 + 4 * b ^ 2)
    let l1 := (a + c - d) / 2
    let l2 := (a + c + d) / 2
    let n1 := Real.sqrt ((l1 - c) ^ 2 + b ^ 2)
    let n2 := Real.sqrt ((l2 - c) ^ 2 + b ^ 2)
    ((l1, l2), (((l1 - c) / n1, b / n1), ((l2 - c) / n2, b / n2)))

/-- `compute_credible_region_polygon`: validation, then either the
fixed-radius circular fallback for a near-singular covariance or the
χ²-scaled covariance ellipse.  The `(N, 2)` shape check of the source holds
by typing here; Python messages embedding float values keep only their
fixed prefix.  Returns the `(latitudes, longitudes)` pair. -/
noncomputable def compute_credible_region_polygon (samples : List (ℝ × ℝ))
    (confidence : ℝ) (n_points : ℕ) : Except String (List ℝ × List ℝ) :=
  if ¬ (0 < confidence ∧ confidence < 1) then
    .error "Confidence must be between 0 and 1"
  else if samples.length < 3 then
    .error "Need at least 3 samples"
  else if covDet (sampleCov samples) < 1e-10 then
    .ok ((linspace 0 (2 * Real.pi) n_points).map
          (fun t => (sampleMean samples).1 + 0.01 * Real.cos t),
         (linspace 0 (2 * Real.pi) n_points).map
          (fun t => (sampleMean samples).2 + 0.01 * Real.sin t))
  else
    let q := chi2_ppf_df2 confidence
    let ev := eigh2 (sampleCov samples).1 (sampleCov samples).2.1 (sampleCov samples).2.2
    let width := 2 * Real.sqrt (max ev.1.1 1e-10 * q)
    let height := 2 * Real.sqrt (max ev.1.2 1e-10 * q)
    let poly := (linspace 0 (2 * Real.pi) n_points).map fun t =>
      let x := width / 2 * Real.cos t
      let y := height / 2 * Real.sin t
      ((sampleMean samples).1 + (x * ev.2.1.1 + y * ev.2.2.1),
       (sampleMean samples).2 + (x * ev.2.1.2 + y * ev.2.2.2))
    .ok (poly.map Prod.fst, poly.map Prod.snd)

/-- The per-line filter of the `read_scat_samples` loop: strip; skip blank
lines; require at least two whitespace tokens whose first two parse as
Python floats, else skip.  The exact decimal values are kept as rationals. -/
def scatSampleOfLine (line : String) : Option (ℚ × ℚ) :=
  let l := pyStrip line
  if l = "" then none
  else
    let values := pySplitWs l
    if values.length ≥ 2 then
      match pyFloat (values.getD 0 ""), pyFloat (values.getD 1 "") with
      | some lat, some lng => some (lat, lng)
      | _, _ => none
    else none

/-- `read_scat_samples` on the file's lines: drop the final line (the
acceptance-rate summary), filter the rest through `scatSampleOfLine`, and
fail when nothing remains. -/
def read_scat_samples (lines : List String) : Except String (List (ℚ × ℚ)) :=
  let samples := lines.dropLast.filterMap scatSampleOfLine
  if samples = [] then .error "No valid samples found in file"
  else .ok samples

/-- The result dictionary of `compute_credible_region_from_file`. -/
structure CredibleRegion where
  polygon : List (ℝ × ℝ)
  center : ℝ × ℝ
  confidence : ℝ
  n_samples : ℕ

/-- `compute_credible_region_from_file`: read the samples, compute the
polygon at the requested confidence (with the source's default
`n_points=100`), zip the coordinate lists into vertex pairs, and attach the
mean center and sample count. -/
noncomputable def compute_credible_region_from_file (lines : List String)
    (confidence : ℝ) : Except String CredibleRegion := do
  let samplesQ ← read_scat_samples lines
  let lat_lng ← compute_credible_region_polygon
      (samplesQ.map fun p => ((p.1 : ℝ), (p.2 : ℝ))) confidence 100
  .ok { polygon := lat_lng.1.zip lat_lng.2
        center := sampleMean (samplesQ.map fun p => ((p.1 : ℝ), (p.2 : ℝ)))
        confidence := confidence
        n_samples := samplesQ.length }

/-- A line is uniform for a sample list when the `_parse_vcf` loop treats
every sample alike on it: header, comment, blank, short and GT-less lines
are skipped for all samples, and a retained data line must supply a
`GT`-bearing column for every sample. -/
def uniformLine (samples : List String) (line : String) : Bool :=
  let l := pyStrip line
  if pyStartsWith l "#CHROM" then true
  else if ¬ pyStartsWith l "#" ∧ l ≠ "" then
    let parts := pySplitSep '\t' l
    if parts.length < 9 then true
    else
      let fmt := pySplitSep ':' (parts.getD 8 "")
      if ¬ fmt.contains "GT" then true
      else
        samples.enum.all fun is =>
          decide (9 + is.1 < parts.length)
            && decide (pyIndex fmt "GT"
                < (pySplitSep ':' (parts.getD (9 + is.1) "")).length)
  else true

/-- Substring containment, stated over the underlying character lists. -/
def strContains (s t : String) : Prop :=
  ∃ p q : List Char, s.toList = p ++ t.toList ++ q

lemma strContains_self (t : String) : strContains t t :=
  ⟨[], [], by simp⟩

lemma strContains_empty (s : String) : strContains s "" :=
  ⟨s.toList, [], by simp [String.toList]⟩

lemma strContains_append_left (u : String) {s t : String} (h : strContains s t) :
    strContains (u ++ s) t := by
  obtain ⟨p, q, hp⟩ := h
  exact ⟨u.toList ++ p, q, by simp [String.toList, String.data_append] at hp ⊢; simp [hp]⟩

lemma strContains_append_right (u : String) {s t : String} (h : strContains s t) :
    strContains (s ++ u) t := by
  obtain ⟨p, q, hp⟩ := h
  exact ⟨p, q ++ u.toList, by simp [String.toList, String.data_append] at hp ⊢; simp [hp]⟩

/-- C1: the genotype-decoding table.  The claim's clause sending every token
outside the `a/b`, `a|b` pattern with `a, b ∈ {0, 1}` to `(-9, -9)` fails on
the code (see the counterexample), which converts any pair of parseable
integers; this theorem states the amended rule: the enumerated tokens decode
as claimed, and every other token decodes to `(a+1, b+1)` whenever its two
separator-split fields parse as Python integers `a`, `b`, and to `(-9, -9)`
otherwise — never an error (`parse_genotype` is total). -/
theorem c1_genotype_decoding :
    parse_genotype "0/0" = (1, 1) ∧ parse_genotype "0|0" = (1, 1)
    ∧ parse_genotype "1/1" = (2, 2) ∧ parse_genotype "1|1" = (2, 2)
    ∧ parse_genotype "0/1" = (1, 2) ∧ parse_genotype "0|1" = (1, 2)
    ∧ parse_genotype "1/0" = (2, 1) ∧ parse_genotype "1|0" = (2, 1)
    ∧ parse_genotype "." = (-9, -9) ∧ parse_genotype "./." = (-9, -9)
    ∧ parse_genotype "./0" = (-9, -9) ∧ parse_genotype "0/." = (-9, -9)
    ∧ (∀ gt : String, ∀ a b : Int,
        ¬ (gt = "./." ∨ gt = "." ∨ gt = "./0" ∨ gt = "0/.") →
        splitAlleles gt = some (a, b) →
        parse_genotype gt = (a + 1, b + 1))
    ∧ (∀ gt : String,
        ¬ (gt = "./." ∨ gt = "." ∨ gt = "./0" ∨ gt = "0/.") →
        splitAlleles gt = none →
        parse_genotype gt = (-9, -9))
    ∧ ∀ gt : String, parse_genotype gt = (-9, -9)
        ∨ ∃ a b : Int, splitAlleles gt = some (a, b)
            ∧ parse_genotype gt = (a + 1, b + 1) := by
  refine ⟨by decide, by decide, by decide, by decide, by decide, by decide,
    by decide, by decide, by decide, by decide, by decide, by decide,
    ?_, ?_, ?_⟩
  · intro gt a b hns h
    unfold parse_genotype
    rw [if_neg hns, h]
  · intro gt hns h
    unfold parse_genotype
    rw [if_neg hns, h]
  · intro gt
    unfold parse_genotype
    split
    · exact Or.inl rfl
    · cases h : splitAlleles gt with
      | none => exact Or.inl rfl
      | some ab =>
        obtain ⟨a, b⟩ := ab
        exact Or.inr ⟨a, b, rfl, rfl⟩

/-- Witness for C1: the integer-pair direction at the concrete token `2/2`
(both fields parse as `2`, so the result is `(3, 3)`) and the parse-failure
direction at the concrete token `x`. -/
theorem c1_genotype_decoding_witness :
    (¬ ("2/2" = "./." ∨ "2/2" = "." ∨ "2/2" = "./0" ∨ "2/2" = "0/.")
      ∧ splitAlleles "2/2" = some (2, 2)
      ∧ parse_genotype "2/2" = (2 + 1, 2 + 1))
    ∧ (splitAlleles "x" = none ∧ parse_genotype "x" = (-9, -9)) :=
  ⟨⟨by decide, by decide,
    c1_genotype_decoding.2.2.2.2.2.2.2.2.2.2.2.2.1 "2/2" 2 2
      (by decide) (by decide)⟩,
   ⟨by decide,
    c1_genotype_decoding.2.2.2.2.2.2.2.2.2.2.2.2.2.1 "x"
      (by decide) (by decide)⟩⟩

/-- C1 counterexample: the token `2/2` does not match the two-allele
pattern with alleles in `{0, 1}`, yet the code decodes it to `(3, 3)`,
not `(-9, -9)` as the claim requires. -/
theorem c1_counterexample :
    parse_genotype "2/2" = (3, 3) ∧ ((3, 3) : Int × Int) ≠ (-9, -9) := by
  decide

/-- C4: when both VCFs parse, the test VCF has exactly one sample, and the
two locus counts differ, `_convert_vcfs_to_scat_format` fails with the
`genotype_mismatch` error: code `E005` (`GENOTYPE_MISMATCH`), and both the
test and the training locus counts appear in the error's details and hence
in its formatted message. -/
theorem c4_locus_mismatch (trVcf teVcf trLoc : List String)
    (trPath tePath : String)
    (h1 : vcfOk trVcf trPath = true) (h2 : vcfOk teVcf tePath = true)
    (h3 : (vcfSamples teVcf tePath).length = 1)
    (h4 : testLocusCount teVcf tePath ≠ trainingLocusCount trVcf trPath) :
    convert_vcfs_to_scat_format trVcf teVcf trLoc trPath tePath
      = .error (SCATPipelineError.genotype_mismatch (testLocusCount teVcf tePath)
          (trainingLocusCount trVcf trPath))
    ∧ (SCATPipelineError.genotype_mismatch (testLocusCount teVcf tePath)
          (trainingLocusCount trVcf trPath)).error_code = "E005"
    ∧ (∃ d, (SCATPipelineError.genotype_mismatch (testLocusCount teVcf tePath)
          (trainingLocusCount trVcf trPath)).details = some d
        ∧ strContains d (toString (testLocusCount teVcf tePath))
        ∧ strContains d (toString (trainingLocusCount trVcf trPath)))
    ∧ strContains (SCATPipelineError.full_message
          (SCATPipelineError.genotype_mismatch (testLocusCount teVcf tePath)
            (trainingLocusCount trVcf trPath)))
        (toString (testLocusCount teVcf tePath))
    ∧ strContains (SCATPipelineError.full_message
          (SCATPipelineError.genotype_mismatch (testLocusCount teVcf tePath)
            (trainingLocusCount trVcf trPath)))
        (toString (trainingLocusCount trVcf trPath)) := by
  obtain ⟨tr, htr⟩ : ∃ tr, parse_vcf trVcf trPath = .ok tr := by
    unfold vcfOk at h1
    cases h : parse_vcf trVcf trPath with
    | ok tr => exact ⟨tr, rfl⟩
    | error e => rw [h] at h1; simp [Except.isOk, Except.toBool] at h1
  obtain ⟨te, hte⟩ : ∃ te, parse_vcf teVcf tePath = .ok te := by
    unfold vcfOk at h2
    cases h : parse_vcf teVcf tePath with
    | ok te => exact ⟨te, rfl⟩
    | error e => rw [h] at h2; simp [Except.isOk, Except.toBool] at h2
  have hsam : vcfSamples teVcf tePath = te.1 := by unfold vcfSamples; rw [hte]
  have hT : testLocusCount teVcf tePath = (te.2 (te.1.getD 0 "")).length := by
    unfold testLocusCount vcfGenosOf
    rw [hsam, hte]
  have hR : trainingLocusCount trVcf trPath = (tr.2 (tr.1.getD 0 "")).length := by
    unfold trainingLocusCount vcfGenosOf vcfSamples
    rw [htr]
  have hlen : te.1.length = 1 := by rw [hsam] at h3; exact h3
  have hmain : convert_vcfs_to_scat_format trVcf teVcf trLoc trPath tePath
      = .error (SCATPipelineError.genotype_mismatch (testLocusCount teVcf tePath)
          (trainingLocusCount trVcf trPath)) := by
    unfold convert_vcfs_to_scat_format
    rw [htr, hte]
    show (if te.1.length ≠ 1 then _ else _) = _
    rw [if_neg (by rw [hlen]; exact fun hc => hc rfl)]
    rw [hT, hR] at h4 ⊢
    rw [if_pos h4]
  refine ⟨hmain, rfl, ⟨_, rfl, ?_, ?_⟩, ?_, ?_⟩
  · exact strContains_append_right " loci"
      (strContains_append_right (toString (trainingLocusCount trVcf trPath))
        (strContains_append_right " loci, training data has "
          (strContains_append_left "Test sample has " (strContains_self _))))
  · exact strContains_append_right " loci"
      (strContains_append_left
        ("Test sample has " ++ toString (testLocusCount teVcf tePath)
          ++ " loci, training data has ")
        (strContains_self _))
  · have hfm : SCATPipelineError.full_message
        (SCATPipelineError.genotype_mismatch (testLocusCount teVcf tePath)
          (trainingLocusCount trVcf trPath))
        = "[" ++ "E005" ++ "] "
            ++ "Genotype data mismatch between test and training samples"
          ++ ("\nDetails: "
              ++ ("Test sample has " ++ toString (testLocusCount teVcf tePath)
                  ++ " loci, training data has "
                  ++ toString (trainingLocusCount trVcf trPath) ++ " loci"))
          ++ ""
          ++ ("\nSuggestion: "
              ++ "Ensure test VCF contains the same SNP panel as training data") := rfl
    rw [hfm]
    exact strContains_append_right _
      (strContains_append_right ""
        (strContains_append_left ("[" ++ "E005" ++ "] "
            ++ "Genotype data mismatch between test and training samples")
          (strContains_append_left "\nDetails: "
            (strContains_append_right " loci"
              (strContains_append_right (toString (trainingLocusCount trVcf trPath))
                (strContains_append_right " loci, training data has "
                  (strContains_append_left "Test sample has " (strContains_self _))))))))
  · have hfm : SCATPipelineError.full_message
        (SCATPipelineError.genotype_mismatch (testLocusCount teVcf tePath)
          (trainingLocusCount trVcf trPath))
        = "[" ++ "E005" ++ "] "
            ++ "Genotype data mismatch between test and training samples"
          ++ ("\nDetails: "
              ++ ("Test sample has " ++ toString (testLocusCount teVcf tePath)
                  ++ " loci, training data has "
                  ++ toString (trainingLocusCount trVcf trPath) ++ " loci"))
          ++ ""
          ++ ("\nSuggestion: "
              ++ "Ensure test VCF contains the same SNP panel as training data") := rfl
    rw [hfm]
    exact strContains_append_right _
      (strContains_append_right ""
        (strContains_append_left ("[" ++ "E005" ++ "] "
            ++ "Genotype data mismatch between test and training samples")
          (strContains_append_left "\nDetails: "
            (strContains_append_right " loci"
              (strContains_append_left
                ("Test sample has " ++ toString (testLocusCount teVcf tePath)
                  ++ " loci, training data has ")
                (strContains_self _))))))

/-- Witness for C4 at a concrete pair of VCFs: the training panel has one
locus, the test specimen two, and conversion fails with the mismatch
error. -/
theorem c4_locus_mismatch_witness :
    vcfOk ["#CHROM\tPOS\tID\tREF\tALT\tQUAL\tFILTER\tINFO\tFORMAT\tA",
        "1\t1\t.\tA\tC\t.\t.\t.\tGT\t0/0"] "tr.vcf" = true
    ∧ vcfOk ["#CHROM\tPOS\tID\tREF\tALT\tQUAL\tFILTER\tINFO\tFORMAT\tX",
        "1\t1\t.\tA\tC\t.\t.\t.\tGT\t0/0",
        "1\t2\t.\tA\tC\t.\t.\t.\tGT\t0/1"] "te.vcf" = true
    ∧ convert_vcfs_to_scat_format
        ["#CHROM\tPOS\tID\tREF\tALT\tQUAL\tFILTER\tINFO\tFORMAT\tA",
         "1\t1\t.\tA\tC\t.\t.\t.\tGT\t0/0"]
        ["#CHROM\tPOS\tID\tREF\tALT\tQUAL\tFILTER\tINFO\tFORMAT\tX",
         "1\t1\t.\tA\tC\t.\t.\t.\tGT\t0/0",
         "1\t2\t.\tA\tC\t.\t.\t.\tGT\t0/1"]
        ["A 1 0.0 0.0"] "tr.vcf" "te.vcf"
      = .error (SCATPipelineError.genotype_mismatch
          (testLocusCount ["#CHROM\tPOS\tID\tREF\tALT\tQUAL\tFILTER\tINFO\tFORMAT\tX",
            "1\t1\t.\tA\tC\t.\t.\t.\tGT\t0/0",
            "1\t2\t.\tA\tC\t.\t.\t.\tGT\t0/1"] "te.vcf")
          (trainingLocusCount ["#CHROM\tPOS\tID\tREF\tALT\tQUAL\tFILTER\tINFO\tFORMAT\tA",
            "1\t1\t.\tA\tC\t.\t.\t.\tGT\t0/0"] "tr.vcf")) :=
  ⟨by decide, by decide,
    (c4_locus_mismatch _ _ ["A 1 0.0 0.0"] "tr.vcf" "te.vcf"
      (by decide) (by decide) (by decide) (by decide)).1⟩

/-- C8: the SCAT invocation's argument list is exactly the fixed
flag/positional contract with the `100`/`100`/`100` iteration, thinning and
burn-in defaults, and every non-zero exit produces the
`scat_execution_failed` error whose details contain the full joined command
line, the exit code, and the captured stdout and stderr. -/
theorem c8_scat_invocation (scat_exec grid geno loc outdir : String)
    (num_snps : Nat) (proc : ProcResult) (h : proc.returncode ≠ 0) :
    scat_cmd scat_exec grid geno loc outdir num_snps
      = [scat_exec, "-A", "1", "1", "-g", grid, geno, loc, outdir,
         toString num_snps, "100", "100", "100"]
    ∧ run_scat scat_exec grid num_snps geno loc outdir proc
      = .error (SCATPipelineError.scat_execution_failed
          (pyJoin " " (scat_cmd scat_exec grid geno loc outdir num_snps))
          proc.returncode proc.stdout proc.stderr)
    ∧ ∃ d, (SCATPipelineError.scat_execution_failed
          (pyJoin " " (scat_cmd scat_exec grid geno loc outdir num_snps))
          proc.returncode proc.stdout proc.stderr).details = some d
        ∧ strContains d (pyJoin " " (scat_cmd scat_exec grid geno loc outdir num_snps))
        ∧ strContains d (toString proc.returncode)
        ∧ strContains d proc.stdout
        ∧ strContains d proc.stderr := by
  obtain ⟨rc, so, se⟩ := proc
  refine ⟨rfl, by unfold run_scat; rw [if_pos h], ?_⟩
  set cmd := pyJoin " " (scat_cmd scat_exec grid geno loc outdir num_snps) with hcmd
  by_cases hso : so = ""
  · by_cases hse : se = ""
    · subst hso; subst hse
      refine ⟨"Command: " ++ cmd ++ "\nReturn code: " ++ toString rc, rfl, ?_, ?_,
        strContains_empty _, strContains_empty _⟩
      · exact strContains_append_right (toString rc)
          (strContains_append_right "\nReturn code: "
            (strContains_append_left "Command: " (strContains_self _)))
      · exact strContains_append_left
          ("Command: " ++ cmd ++ "\nReturn code: ") (strContains_self _)
    · subst hso
      have hd : (SCATPipelineError.scat_execution_failed cmd rc "" se).details
          = some ("Command: " ++ cmd ++ "\nReturn code: " ++ toString rc
              ++ "\nSTDERR: " ++ se) := by
        simp [SCATPipelineError.scat_execution_failed, hse]
      refine ⟨_, hd, ?_, ?_, strContains_empty _, ?_⟩
      · exact strContains_append_right se
          (strContains_append_right "\nSTDERR: "
            (strContains_append_right (toString rc)
              (strContains_append_right "\nReturn code: "
                (strContains_append_left "Command: " (strContains_self _)))))
      · exact strContains_append_right se
          (strContains_append_right "\nSTDERR: "
            (strContains_append_left
              ("Command: " ++ cmd ++ "\nReturn code: ") (strContains_self _)))
      · exact strContains_append_left
          ("Command: " ++ cmd ++ "\nReturn code: " ++ toString rc ++ "\nSTDERR: ")
          (strContains_self _)
  · by_cases hse : se = ""
    · subst hse
      have hd : (SCATPipelineError.scat_execution_failed cmd rc so "").details
          = some ("Command: " ++ cmd ++ "\nReturn code: " ++ toString rc
              ++ "\nSTDOUT: " ++ so) := by
        simp [SCATPipelineError.scat_execution_failed, hso]
      refine ⟨_, hd, ?_, ?_, ?_, strContains_empty _⟩
      · exact strContains_append_right so
          (strContains_append_right "\nSTDOUT: "
            (strContains_append_right (toString rc)
              (strContains_append_right "\nReturn code: "
                (strContains_append_left "Command: " (strContains_self _)))))
      · exact strContains_append_right so
          (strContains_append_right "\nSTDOUT: "
            (strContains_append_left
              ("Command: " ++ cmd ++ "\nReturn code: ") (strContains_self _)))
      · exact strContains_append_left
          ("Command: " ++ cmd ++ "\nReturn code: " ++ toString rc ++ "\nSTDOUT: ")
          (strContains_self _)
    · have hd : (SCATPipelineError.scat_execution_failed cmd rc so se).details
          = some ("Command: " ++ cmd ++ "\nReturn code: " ++ toString rc
              ++ "\nSTDOUT: " ++ so ++ "\nSTDERR: " ++ se) := by
        simp [SCATPipelineError.scat_execution_failed, hso, hse]
      refine ⟨_, hd, ?_, ?_, ?_, ?_⟩
      · exact strContains_append_right se
          (strContains_append_right "\nSTDERR: "
            (strContains_append_right so
              (strContains_append_right "\nSTDOUT: "
                (strContains_append_right (toString rc)
                  (strContains_append_right "\nReturn code: "
                    (strContains_append_left "Command: " (strContains_self _)))))))
      · exact strContains_append_right se
          (strContains_append_right "\nSTDERR: "
            (strContains_append_right so
              (strContains_append_right "\nSTDOUT: "
                (strContains_append_left
                  ("Command: " ++ cmd ++ "\nReturn code: ") (strContains_self _)))))
      · exact strContains_append_right se
          (strContains_append_right "\nSTDERR: "
            (strContains_append_left
              ("Command: " ++ cmd ++ "\nReturn code: " ++ toString rc ++ "\nSTDOUT: ")
              (strContains_self _)))
      · exact strContains_append_left
          ("Command: " ++ cmd ++ "\nReturn code: " ++ toString rc
            ++ "\nSTDOUT: " ++ so ++ "\nSTDERR: ") (strContains_self _)

/-- Witness for C8 at a concrete failing invocation (exit code 1, nonempty
captured streams). -/
theorem c8_scat_invocation_witness :
    scat_cmd "SCAT3" "grid.txt" "geno.txt" "loc.txt" "out" 84
      = ["SCAT3", "-A", "1", "1", "-g", "grid.txt", "geno.txt", "loc.txt",
         "out", "84", "100", "100", "100"]
    ∧ run_scat "SCAT3" "grid.txt" 84 "geno.txt" "loc.txt" "out"
        ⟨1, "some stdout", "some stderr"⟩
      = .error (SCATPipelineError.scat_execution_failed
          (pyJoin " " (scat_cmd "SCAT3" "grid.txt" "geno.txt" "loc.txt" "out" 84))
          1 "some stdout" "some stderr") := by
  have h := c8_scat_invocation "SCAT3" "grid.txt" "geno.txt" "loc.txt" "out" 84
    ⟨1, "some stdout", "some stderr"⟩ (by decide)
  exact ⟨by rw [h.1]; decide, h.2.1⟩

/-- C10: the credible-region computation is deterministic — for a fixed
posterior-sample file content and confidence level, any two results of
`compute_credible_region_from_file` coincide.  (In this embedding the
estimator is a pure function of the file's lines and the confidence; the
source reads only the file and uses no randomness.) -/
theorem c10_determinism (lines : List String) (conf : ℝ)
    (r₁ r₂ : Except String CredibleRegion)
    (h₁ : compute_credible_region_from_file lines conf = r₁)
    (h₂ : compute_credible_region_from_file lines conf = r₂) : r₁ = r₂ := by
  rw [← h₁, ← h₂]

/-- Witness for C10 at a concrete file and confidence level. -/
theorem c10_determinism_witness :
    compute_credible_region_from_file ["1 2", "3 4", "5 6", "0.9"] (1/2)
      = compute_credible_region_from_file ["1 2", "3 4", "5 6", "0.9"] (1/2) :=
  c10_determinism ["1 2", "3 4", "5 6", "0.9"] (1/2) _ _ rfl rfl

/-- C3 (amended): every error raised inside the body of `run` — conversion
failures with their specific codes and SCAT execution failures alike — is
caught by the blanket `except Exception` at the top of `run` and surfaces
re-wrapped with the `unknown` code `E999`, the original message preserved
inside the new message; the missing-test-file check, which precedes the
`try`, surfaces with its own `E001` code; and no failure is silently
swallowed (a failed step always yields an error, a successful run returns
the output directory). -/
theorem c3_run_error_wrapping (trVcf teVcf trLoc : List String)
    (trPath tePath scat_exec grid_file output_dir : String) (num_snps : Nat)
    (proc : ProcResult) :
    (pipeline_run false trVcf teVcf trLoc trPath tePath scat_exec grid_file
        output_dir num_snps proc
        = .error (SCATPipelineError.file_not_found tePath "VCF")
      ∧ (SCATPipelineError.file_not_found tePath "VCF").error_code = "E001")
    ∧ (∀ e, convert_vcfs_to_scat_format trVcf teVcf trLoc trPath tePath = .error e →
        pipeline_run true trVcf teVcf trLoc trPath tePath scat_exec grid_file
            output_dir num_snps proc
          = .error (wrap_unknown e)
        ∧ (wrap_unknown e).error_code = "E999"
        ∧ (wrap_unknown e).message = "Pipeline execution failed: " ++ e.message)
    ∧ (∀ gl, convert_vcfs_to_scat_format trVcf teVcf trLoc trPath tePath = .ok gl →
        proc.returncode ≠ 0 →
        pipeline_run true trVcf teVcf trLoc trPath tePath scat_exec grid_file
            output_dir num_snps proc
          = .error (wrap_unknown (SCATPipelineError.scat_execution_failed
              (pyJoin " " (scat_cmd scat_exec grid_file
                (output_dir ++ "/merged_genotype.txt")
                (output_dir ++ "/merged_location.txt") output_dir num_snps))
              proc.returncode proc.stdout proc.stderr)))
    ∧ (∀ gl, convert_vcfs_to_scat_format trVcf teVcf trLoc trPath tePath = .ok gl →
        proc.returncode = 0 →
        pipeline_run true trVcf teVcf trLoc trPath tePath scat_exec grid_file
            output_dir num_snps proc
          = .ok output_dir) := by
  refine ⟨⟨by unfold pipeline_run; rw [if_pos (by simp)], rfl⟩, ?_, ?_, ?_⟩
  · intro e he
    refine ⟨?_, rfl, rfl⟩
    unfold pipeline_run
    rw [if_neg (by simp)]
    show (match (convert_vcfs_to_scat_format trVcf teVcf trLoc trPath tePath >>= _ :
        Except SCATPipelineError String) with
      | .ok d => Except.ok d
      | .error e => Except.error (wrap_unknown e)) = _
    rw [he]
    rfl
  · intro gl hok hrc
    unfold pipeline_run
    rw [if_neg (by simp)]
    show (match (convert_vcfs_to_scat_format trVcf teVcf trLoc trPath tePath >>= _ :
        Except SCATPipelineError String) with
      | .ok d => Except.ok d
      | .error e => Except.error (wrap_unknown e)) = _
    rw [hok]
    show (match (run_scat scat_exec grid_file num_snps _ _ output_dir proc >>= _ :
        Except SCATPipelineError String) with
      | .ok d => Except.ok d
      | .error e => Except.error (wrap_unknown e)) = _
    unfold run_scat
    rw [if_pos hrc]
    rfl
  · intro gl hok hrc
    unfold pipeline_run
    rw [if_neg (by simp)]
    show (match (convert_vcfs_to_scat_format trVcf teVcf trLoc trPath tePath >>= _ :
        Except SCATPipelineError String) with
      | .ok d => Except.ok d
      | .error e => Except.error (wrap_unknown e)) = _
    rw [hok]
    show (match (run_scat scat_exec grid_file num_snps _ _ output_dir proc >>= _ :
        Except SCATPipelineError String) with
      | .ok d => Except.ok d
      | .error e => Except.error (wrap_unknown e)) = _
    unfold run_scat
    rw [if_neg (by simp [hrc])]
    rfl

/-- C3 counterexample: at a concrete run whose conversion step fails with
the typed locus-mismatch error (code `E005`), `run` surfaces the failure
with code `E999`, not the specific code the claim requires. -/
theorem c3_counterexample :
    convert_vcfs_to_scat_format
        ["#CHROM\tPOS\tID\tREF\tALT\tQUAL\tFILTER\tINFO\tFORMAT\tA",
         "1\t1\t.\tA\tC\t.\t.\t.\tGT\t0/0"]
        ["#CHROM\tPOS\tID\tREF\tALT\tQUAL\tFILTER\tINFO\tFORMAT\tX",
         "1\t1\t.\tA\tC\t.\t.\t.\tGT\t0/0",
         "1\t2\t.\tA\tC\t.\t.\t.\tGT\t0/1"]
        ["A 1 0.0 0.0"] "tr.vcf" "te.vcf"
      = .error (SCATPipelineError.genotype_mismatch 2 1)
    ∧ (SCATPipelineError.genotype_mismatch 2 1).error_code = "E005"
    ∧ pipeline_run true
        ["#CHROM\tPOS\tID\tREF\tALT\tQUAL\tFILTER\tINFO\tFORMAT\tA",
         "1\t1\t.\tA\tC\t.\t.\t.\tGT\t0/0"]
        ["#CHROM\tPOS\tID\tREF\tALT\tQUAL\tFILTER\tINFO\tFORMAT\tX",
         "1\t1\t.\tA\tC\t.\t.\t.\tGT\t0/0",
         "1\t2\t.\tA\tC\t.\t.\t.\tGT\t0/1"]
        ["A 1 0.0 0.0"] "tr.vcf" "te.vcf" "SCAT3" "grid.txt" "out" 84
        ⟨0, "", ""⟩
      = .error (wrap_unknown (SCATPipelineError.genotype_mismatch 2 1))
    ∧ (wrap_unknown (SCATPipelineError.genotype_mismatch 2 1)).error_code = "E999"
    ∧ "E999" ≠ "E005" := by
  refine ⟨by decide, by decide, by decide, by decide, by decide⟩

/-- Witness for C3 at a concrete run with a failing conversion step. -/
theorem c3_run_error_wrapping_witness :
    pipeline_run true
        ["#CHROM\tPOS\tID\tREF\tALT\tQUAL\tFILTER\tINFO\tFORMAT\tA",
         "1\t1\t.\tA\tC\t.\t.\t.\tGT\t0/0"]
        ["#CHROM\tPOS\tID\tREF\tALT\tQUAL\tFILTER\tINFO\tFORMAT\tX",
         "1\t1\t.\tA\tC\t.\t.\t.\tGT\t0/0",
         "1\t2\t.\tA\tC\t.\t.\t.\tGT\t0/1"]
        ["A 1 0.0 0.0"] "tr.vcf" "te.vcf" "SCAT3" "grid.txt" "out" 84
        ⟨0, "", ""⟩
      = .error (wrap_unknown (SCATPipelineError.genotype_mismatch 2 1))
    ∧ (wrap_unknown (SCATPipelineError.genotype_mismatch 2 1)).error_code = "E999" :=
  ⟨((c3_run_error_wrapping _ _ ["A 1 0.0 0.0"] "tr.vcf" "te.vcf" "SCAT3" "grid.txt"
      "out" 84 ⟨0, "", ""⟩).2.1 (SCATPipelineError.genotype_mismatch 2 1)
      (by decide)).1,
   ((c3_run_error_wrapping
      ["#CHROM\tPOS\tID\tREF\tALT\tQUAL\tFILTER\tINFO\tFORMAT\tA",
       "1\t1\t.\tA\tC\t.\t.\t.\tGT\t0/0"]
      ["#CHROM\tPOS\tID\tREF\tALT\tQUAL\tFILTER\tINFO\tFORMAT\tX",
       "1\t1\t.\tA\tC\t.\t.\t.\tGT\t0/0",
       "1\t2\t.\tA\tC\t.\t.\t.\tGT\t0/1"]
      ["A 1 0.0 0.0"] "tr.vcf" "te.vcf" "SCAT3" "grid.txt"
      "out" 84 ⟨0, "", ""⟩).2.1 (SCATPipelineError.genotype_mismatch 2 1)
      (by decide)).2.1⟩

lemma genotype_blocks_flatten_length (g : Genos) :
    ∀ ps : List (ℕ × String),
      ((ps.map fun is => write_genotype_block is.2 ((is.1 : Int) + 1) (g is.2)).flatten).length
        = 2 * ps.length
  | [] => rfl
  | p :: ps => by
    rw [List.map_cons, List.flatten_cons, List.length_append,
      genotype_blocks_flatten_length g ps]
    show 2 + 2 * ps.length = 2 * (ps.length + 1)
    omega

lemma write_location_file_all_kept (locLines : List String) (te_name : String)
    (hloc : ∀ l ∈ locLines, pyStrip l ≠ ""
      ∧ (pySplitWs (pyStrip l)).getD 0 "" ≠ te_name) :
    write_location_file locLines te_name = locLines.map pyStrip := by
  induction locLines with
  | nil => rfl
  | cons l ls ih =>
    have h := hloc l (List.mem_cons_self l ls)
    have hrest : ∀ l' ∈ ls, pyStrip l' ≠ ""
        ∧ (pySplitWs (pyStrip l')).getD 0 "" ≠ te_name :=
      fun l' hl' => hloc l' (List.mem_cons_of_mem l hl')
    unfold write_location_file at ih ⊢
    rw [List.filterMap_cons, List.map_cons]
    simp only [if_neg h.1, if_neg h.2]
    rw [ih hrest]

/-- C2: given parsed inputs with a reference panel of `N` samples, the
merged genotype file has exactly `2 * (N + 1)` rows, the first two rows are
the test specimen's, prefixed by its identifier and location index `-1`,
row 1 carrying the first allele of every locus and row 2 the second; the
remaining rows are the reference samples' blocks with sequential indices
`1..N` in original order; and, for a location file with one row per
reference sample none of which names the test specimen, the written
location file has exactly the `N` reference rows.  The claim's concrete
scenario (test `X` parsed as `[(1,1),(1,2)]`) appears as the final
conjunct. -/
theorem c2_conversion_output_shape (te_name : String) (te_gt : List (Int × Int))
    (tr_samples : List String) (tr_genos : Genos) (locLines : List String)
    (hloc : ∀ l ∈ locLines, pyStrip l ≠ ""
      ∧ (pySplitWs (pyStrip l)).getD 0 "" ≠ te_name)
    (hN : locLines.length = tr_samples.length) :
    (write_genotype_file te_name te_gt tr_samples tr_genos).length
        = 2 * (tr_samples.length + 1)
    ∧ (write_genotype_file te_name te_gt tr_samples tr_genos).take 2
        = [te_name ++ " " ++ toString (-1 : Int) ++ " "
             ++ pyJoin " " (te_gt.map fun p => toString p.1),
           te_name ++ " " ++ toString (-1 : Int) ++ " "
             ++ pyJoin " " (te_gt.map fun p => toString p.2)]
    ∧ (write_genotype_file te_name te_gt tr_samples tr_genos).drop 2
        = (tr_samples.enum.map fun is =>
            write_genotype_block is.2 ((is.1 : Int) + 1) (tr_genos is.2)).flatten
    ∧ write_location_file locLines te_name = locLines.map pyStrip
    ∧ (write_location_file locLines te_name).length = tr_samples.length
    ∧ (write_genotype_file "X" [(1, 1), (1, 2)] ["A", "B", "C"] tr_genos).take 2
        = ["X -1 1 1", "X -1 1 2"] := by
  refine ⟨?_, rfl, rfl, write_location_file_all_kept locLines te_name hloc, ?_, rfl⟩
  · show ((write_genotype_block te_name (-1) te_gt)
        ++ (tr_samples.enum.map fun is =>
            write_genotype_block is.2 ((is.1 : Int) + 1) (tr_genos is.2)).flatten).length = _
    rw [List.length_append, genotype_blocks_flatten_length tr_genos tr_samples.enum,
      List.enum_length]
    show 2 + 2 * tr_samples.length = 2 * (tr_samples.length + 1)
    ring
  · rw [write_location_file_all_kept locLines te_name hloc, List.length_map, hN]

/-- Witness for C2 at the claim's concrete scenario: reference panel
`A, B, C` with two loci, test specimen `X` parsed as `[(1,1),(1,2)]`. -/
theorem c2_conversion_output_shape_witness :
    (write_genotype_file "X" [(1, 1), (1, 2)] ["A", "B", "C"]
        (fun _ => [(1, 1), (2, 2)])).length = 2 * (3 + 1)
    ∧ (write_genotype_file "X" [(1, 1), (1, 2)] ["A", "B", "C"]
        (fun _ => [(1, 1), (2, 2)])).take 2 = ["X -1 1 1", "X -1 1 2"]
    ∧ write_location_file ["A 1 0.0 0.0", "B 2 1.0 1.0", "C 3 2.0 2.0"] "X"
        = ["A 1 0.0 0.0", "B 2 1.0 1.0", "C 3 2.0 2.0"]
    ∧ (write_location_file ["A 1 0.0 0.0", "B 2 1.0 1.0", "C 3 2.0 2.0"] "X").length
        = 3 := by
  have h := c2_conversion_output_shape "X" [(1, 1), (1, 2)] ["A", "B", "C"]
    (fun _ => [(1, 1), (2, 2)]) ["A 1 0.0 0.0", "B 2 1.0 1.0", "C 3 2.0 2.0"]
    (by decide) (by decide)
  exact ⟨h.1, h.2.2.2.2.2, by rw [h.2.2.2.1]; decide, h.2.2.2.2.1⟩

lemma exceptBind_ok {ε α β : Type _} (a : α) (f : α → Except ε β) :
    ((Except.ok a : Except ε α) >>= f) = f a := rfl

lemma exceptBind_error {ε α β : Type _} (e : ε) (f : α → Except ε β) :
    ((Except.error e : Except ε α) >>= f) = Except.error e := rfl

lemma polygon_error_iff (samples : List (ℝ × ℝ)) (conf : ℝ) (n : ℕ) :
    (∃ e, compute_credible_region_polygon samples conf n = .error e)
      ↔ (¬ (0 < conf ∧ conf < 1) ∨ samples.length < 3) := by
  unfold compute_credible_region_polygon
  by_cases hc : 0 < conf ∧ conf < 1
  · rw [if_neg (not_not_intro hc)]
    by_cases hlen : samples.length < 3
    · rw [if_pos hlen]
      exact iff_of_true ⟨_, rfl⟩ (Or.inr hlen)
    · rw [if_neg hlen]
      refine iff_of_false ?_ (by tauto)
      rintro ⟨e, he⟩
      by_cases hdet : covDet (sampleCov samples) < 1e-10
      · rw [if_pos hdet] at he
        simp at he
      · rw [if_neg hdet] at he
        simp at he
  · rw [if_pos hc]
    exact iff_of_true ⟨_, rfl⟩ (Or.inl hc)

/-- C7: `compute_credible_region_from_file` fails exactly when the
confidence lies outside the open interval `(0, 1)` or fewer than 3 samples
survive line filtering (this subsumes the zero-samples read failure); in
particular, malformed lines alone — with at least 3 usable samples and a
valid confidence — never cause failure. -/
theorem c7_estimator_failure_conditions (lines : List String) (conf : ℝ) :
    (∃ e, compute_credible_region_from_file lines conf = .error e)
      ↔ (¬ (0 < conf ∧ conf < 1)
          ∨ (lines.dropLast.filterMap scatSampleOfLine).length < 3) := by
  unfold compute_credible_region_from_file read_scat_samples
  by_cases hempty : lines.dropLast.filterMap scatSampleOfLine = []
  · rw [if_pos hempty]
    simp only [exceptBind_error]
    exact iff_of_true ⟨_, rfl⟩ (Or.inr (by rw [hempty]; simp))
  · rw [if_neg hempty]
    simp only [exceptBind_ok]
    constructor
    · rintro ⟨e, he⟩
      cases hp : compute_credible_region_polygon
          ((lines.dropLast.filterMap scatSampleOfLine).map
            fun p => ((p.1 : ℝ), (p.2 : ℝ))) conf 100 with
      | error e' =>
        have h := (polygon_error_iff _ conf 100).1 ⟨e', hp⟩
        rwa [List.length_map] at h
      | ok ll =>
        rw [hp] at he
        simp only [exceptBind_ok] at he
        simp at he
    · intro h
      have h' : ¬ (0 < conf ∧ conf < 1)
          ∨ ((lines.dropLast.filterMap scatSampleOfLine).map
              fun p => ((p.1 : ℝ), (p.2 : ℝ))).length < 3 := by
        rwa [List.length_map]
      obtain ⟨e', he'⟩ := (polygon_error_iff _ conf 100).2 h'
      exact ⟨e', by rw [he']; rfl⟩

lemma head_map_range {α : Type _} (f : ℕ → α) (n : ℕ) (h : 0 < n) :
    ((List.range n).map f).head? = some (f 0) := by
  cases n with
  | zero => cases h
  | succ m => rw [List.range_succ_eq_map]; simp

lemma getLast_map_range {α : Type _} (f : ℕ → α) (n : ℕ) (h : 0 < n) :
    ((List.range n).map f).getLast? = some (f (n - 1)) := by
  cases n with
  | zero => cases h
  | succ m => rw [List.range_succ, List.map_append]; simp

lemma linspace_endpoint_0 :
    (0 : ℝ) + (2 * Real.pi - 0) * ((0 : ℕ) : ℝ) / ((100 : ℝ) - 1) = 0 := by
  push_cast; ring

lemma linspace_endpoint_99 :
    (0 : ℝ) + (2 * Real.pi - 0) * ((99 : ℕ) : ℝ) / ((100 : ℝ) - 1) = 2 * Real.pi := by
  push_cast
  rw [sub_zero, mul_div_assoc]
  norm_num

lemma map_linspace_closed {α : Type _} (g : ℝ → α) (hg : g 0 = g (2 * Real.pi)) :
    ((linspace 0 (2 * Real.pi) 100).map g).head?
      = ((linspace 0 (2 * Real.pi) 100).map g).getLast? := by
  unfold linspace
  rw [List.map_map, head_map_range _ 100 (by norm_num),
    getLast_map_range _ 100 (by norm_num)]
  show some (g ((0 : ℝ) + (2 * Real.pi - 0) * ((0 : ℕ) : ℝ) / ((100 : ℝ) - 1)))
    = some (g ((0 : ℝ) + (2 * Real.pi - 0) * ((99 : ℕ) : ℝ) / ((100 : ℝ) - 1)))
  rw [linspace_endpoint_0, linspace_endpoint_99, hg]

lemma map_linspace_length {α : Type _} (g : ℝ → α) (n : ℕ) (a b : ℝ) :
    ((linspace a b n).map g).length = n := by
  simp [linspace]

/-- C5: for at least 3 samples and a valid confidence, whenever the sample
covariance determinant is below `1e-10` the estimator returns the
fixed-radius `0.01`-degree circle around the sample mean sampled at the
100 `linspace` angles; and in every case (degenerate or not) the returned
latitude and longitude lists have exactly 100 entries whose first element
equals the last (the polygon is closed, since `cos`/`sin` agree at `0` and
`2π` in the real-number model of the source's floating point). -/
theorem c5_degenerate_circle (samples : List (ℝ × ℝ)) (conf : ℝ)
    (h1 : 0 < conf) (h2 : conf < 1) (h3 : 3 ≤ samples.length) :
    (covDet (sampleCov samples) < 1e-10 →
      compute_credible_region_polygon samples conf 100
        = .ok ((linspace 0 (2 * Real.pi) 100).map
                (fun t => (sampleMean samples).1 + 0.01 * Real.cos t),
               (linspace 0 (2 * Real.pi) 100).map
                (fun t => (sampleMean samples).2 + 0.01 * Real.sin t)))
    ∧ ∀ lats lngs,
        compute_credible_region_polygon samples conf 100 = .ok (lats, lngs) →
        lats.length = 100 ∧ lngs.length = 100
          ∧ lats.head? = lats.getLast? ∧ lngs.head? = lngs.getLast? := by
  have hno : ¬ ¬ (0 < conf ∧ conf < 1) := not_not_intro ⟨h1, h2⟩
  have hlen : ¬ samples.length < 3 := not_lt.2 h3
  constructor
  · intro hdet
    unfold compute_credible_region_polygon
    rw [if_neg hno, if_neg hlen, if_pos hdet]
  · intro lats lngs hok
    unfold compute_credible_region_polygon at hok
    rw [if_neg hno, if_neg hlen] at hok
    by_cases hdet : covDet (sampleCov samples) < 1e-10
    · rw [if_pos hdet] at hok
      simp only [Except.ok.injEq, Prod.mk.injEq] at hok
      rw [← hok.1, ← hok.2]
      refine ⟨map_linspace_length _ _ _ _, map_linspace_length _ _ _ _, ?_, ?_⟩
      · exact map_linspace_closed _ (by simp)
      · exact map_linspace_closed _ (by simp)
    · rw [if_neg hdet] at hok
      simp only [Except.ok.injEq, Prod.mk.injEq] at hok
      rw [← hok.1, ← hok.2]
      rw [List.map_map, List.map_map]
      refine ⟨map_linspace_length _ _ _ _, map_linspace_length _ _ _ _, ?_, ?_⟩
      · exact map_linspace_closed _ (by simp)
      · exact map_linspace_closed _ (by simp)

/-- Witness for C5 at three coincident samples (zero covariance) and
confidence 1/2. -/
theorem c5_degenerate_circle_witness :
    compute_credible_region_polygon [((0 : ℝ), (0 : ℝ)), (0, 0), (0, 0)] (1/2) 100
      = .ok ((linspace 0 (2 * Real.pi) 100).map
              (fun t => (sampleMean [((0 : ℝ), (0 : ℝ)), (0, 0), (0, 0)]).1
                + 0.01 * Real.cos t),
             (linspace 0 (2 * Real.pi) 100).map
              (fun t => (sampleMean [((0 : ℝ), (0 : ℝ)), (0, 0), (0, 0)]).2
                + 0.01 * Real.sin t)) := by
  have h := c5_degenerate_circle [((0 : ℝ), (0 : ℝ)), (0, 0), (0, 0)] (1/2)
    (by norm_num) (by norm_num) (by norm_num)
  refine h.1 ?_
  norm_num [covDet, sampleCov, sampleMean]

/-- C6: for every file content, the final line is never included as a sample
— the result of `read_scat_samples` on `lines ++ [lastLine]` depends only on
`lines` — and the samples are exactly the in-file-order `scatSampleOfLine`
survivors of the non-final lines (non-blank, at least 2 whitespace tokens,
first two parsing as floats); the `n_samples` field of any successful
`compute_credible_region_from_file` result equals the count of those
lines. -/
theorem c6_final_line_excluded (lines : List String) (lastLine : String) :
    read_scat_samples (lines ++ [lastLine])
      = (if lines.filterMap scatSampleOfLine = []
          then .error "No valid samples found in file"
          else .ok (lines.filterMap scatSampleOfLine))
    ∧ ∀ conf r,
        compute_credible_region_from_file (lines ++ [lastLine]) conf = .ok r →
        r.n_samples = (lines.filterMap scatSampleOfLine).length := by
  have hdl : (lines ++ [lastLine]).dropLast = lines := by simp
  constructor
  · unfold read_scat_samples
    rw [hdl]
  · intro conf r hok
    unfold compute_credible_region_from_file read_scat_samples at hok
    rw [hdl] at hok
    by_cases hempty : lines.filterMap scatSampleOfLine = []
    · rw [if_pos hempty] at hok
      simp only [exceptBind_error] at hok
      exact absurd hok (by simp)
    · rw [if_neg hempty] at hok
      simp only [exceptBind_ok] at hok
      cases hp : compute_credible_region_polygon
          ((lines.filterMap scatSampleOfLine).map
            fun p => ((p.1 : ℝ), (p.2 : ℝ))) conf 100 with
      | error e =>
        rw [hp] at hok
        simp only [exceptBind_error] at hok
        exact absurd hok (by simp)
      | ok ll =>
        rw [hp] at hok
        simp only [exceptBind_ok, Except.ok.injEq] at hok
        rw [← hok]

/-- Witness for C6 at a concrete file whose final line `"9 9"` is numeric
and would parse as a sample, yet is excluded; the three collinear samples
take the degenerate-covariance branch and `n_samples = 3`. -/
theorem c6_final_line_excluded_witness :
    read_scat_samples (["1 2", "3 4", "5 6"] ++ ["9 9"])
      = .ok [((1 : ℚ), (2 : ℚ)), (3, 4), (5, 6)]
    ∧ ∃ r, compute_credible_region_from_file (["1 2", "3 4", "5 6"] ++ ["9 9"]) (1/2)
        = .ok r ∧ r.n_samples = 3 := by
  have hpf1 : pyFloat "1" = some 1 := by
    simp [pyFloat, pyStrip, splitAtFirst, validDigitGroup, digitsRun, digitsToNat,
      digitCount]
  have hpf2 : pyFloat "2" = some 2 := by
    simp [pyFloat, pyStrip, splitAtFirst, validDigitGroup, digitsRun, digitsToNat,
      digitCount]
  have hpf3 : pyFloat "3" = some 3 := by
    simp [pyFloat, pyStrip, splitAtFirst, validDigitGroup, digitsRun, digitsToNat,
      digitCount]
  have hpf4 : pyFloat "4" = some 4 := by
    simp [pyFloat, pyStrip, splitAtFirst, validDigitGroup, digitsRun, digitsToNat,
      digitCount]
  have hpf5 : pyFloat "5" = some 5 := by
    simp [pyFloat, pyStrip, splitAtFirst, validDigitGroup, digitsRun, digitsToNat,
      digitCount]
  have hpf6 : pyFloat "6" = some 6 := by
    simp [pyFloat, pyStrip, splitAtFirst, validDigitGroup, digitsRun, digitsToNat,
      digitCount]
  have hl1 : scatSampleOfLine "1 2" = some (1, 2) := by
    simp [scatSampleOfLine, show pyStrip "1 2" = "1 2" from by decide,
      show pySplitWs "1 2" = ["1", "2"] from by decide, hpf1, hpf2]
  have hl2 : scatSampleOfLine "3 4" = some (3, 4) := by
    simp [scatSampleOfLine, show pyStrip "3 4" = "3 4" from by decide,
      show pySplitWs "3 4" = ["3", "4"] from by decide, hpf3, hpf4]
  have hl3 : scatSampleOfLine "5 6" = some (5, 6) := by
    simp [scatSampleOfLine, show pyStrip "5 6" = "5 6" from by decide,
      show pySplitWs "5 6" = ["5", "6"] from by decide, hpf5, hpf6]
  have hfm : (["1 2", "3 4", "5 6"] : List String).filterMap scatSampleOfLine
      = [((1 : ℚ), (2 : ℚ)), (3, 4), (5, 6)] := by
    simp [List.filterMap_cons, hl1, hl2, hl3]
  have h := c6_final_line_excluded ["1 2", "3 4", "5 6"] "9 9"
  have hread : read_scat_samples (["1 2", "3 4", "5 6"] ++ ["9 9"])
      = .ok [((1 : ℚ), (2 : ℚ)), (3, 4), (5, 6)] := by
    rw [h.1, hfm]
    simp
  refine ⟨hread, ?_⟩
  have hcast : ([((1 : ℚ), (2 : ℚ)), (3, 4), (5, 6)]).map
      (fun p => ((p.1 : ℝ), (p.2 : ℝ)))
      = [((1 : ℝ), (2 : ℝ)), (3, 4), (5, 6)] := by
    norm_num
  have hdet : covDet (sampleCov [((1 : ℝ), (2 : ℝ)), (3, 4), (5, 6)]) < 1e-10 := by
    norm_num [covDet, sampleCov, sampleMean]
  have hpoly : compute_credible_region_polygon
      [((1 : ℝ), (2 : ℝ)), (3, 4), (5, 6)] (1/2) 100
      = .ok ((linspace 0 (2 * Real.pi) 100).map
              (fun t => (sampleMean [((1 : ℝ), (2 : ℝ)), (3, 4), (5, 6)]).1
                + 0.01 * Real.cos t),
             (linspace 0 (2 * Real.pi) 100).map
              (fun t => (sampleMean [((1 : ℝ), (2 : ℝ)), (3, 4), (5, 6)]).2
                + 0.01 * Real.sin t)) := by
    unfold compute_credible_region_polygon
    rw [if_neg (by norm_num), if_neg (by norm_num), if_pos hdet]
  have hcompute : compute_credible_region_from_file
      (["1 2", "3 4", "5 6"] ++ ["9 9"]) (1/2)
      = .ok { polygon :=
                ((linspace 0 (2 * Real.pi) 100).map
                  (fun t => (sampleMean [((1 : ℝ), (2 : ℝ)), (3, 4), (5, 6)]).1
                    + 0.01 * Real.cos t)).zip
                ((linspace 0 (2 * Real.pi) 100).map
                  (fun t => (sampleMean [((1 : ℝ), (2 : ℝ)), (3, 4), (5, 6)]).2
                    + 0.01 * Real.sin t))
              center := sampleMean [((1 : ℝ), (2 : ℝ)), (3, 4), (5, 6)]
              confidence := 1/2
              n_samples := 3 } := by
    unfold compute_credible_region_from_file
    rw [hread]
    simp only [exceptBind_ok]
    rw [hcast, hpoly]
    rfl
  have hn := h.2 (1/2) _ hcompute
  refine ⟨_, hcompute, ?_⟩
  rw [hn, hfm]
  rfl

lemma appendGT_ne_key (parts : List String) (gtIdx : Nat) (g : Genos)
    (is : Nat × String) (n : String) (h : n ≠ is.2) :
    appendGT parts gtIdx g is n = g n := by
  unfold appendGT
  by_cases h1 : parts.length ≤ 9 + is.1
  · rw [if_pos h1]
  · rw [if_neg h1]
    by_cases h2 : (pySplitSep ':' (parts.getD (9 + is.1) "")).length ≤ gtIdx
    · rw [if_pos h2]
    · rw [if_neg h2]
      simp [h]

lemma appendGT_hit (parts : List String) (gtIdx : Nat) (g : Genos)
    (is : Nat × String) (h1 : 9 + is.1 < parts.length)
    (h2 : gtIdx < (pySplitSep ':' (parts.getD (9 + is.1) "")).length) :
    appendGT parts gtIdx g is is.2
      = g is.2 ++ [parse_genotype
          ((pySplitSep ':' (parts.getD (9 + is.1) "")).getD gtIdx "")] := by
  unfold appendGT
  rw [if_neg (not_le.2 h1), if_neg (not_le.2 h2)]
  simp

lemma foldl_appendGT_ne (parts : List String) (gtIdx : Nat) :
    ∀ (ps : List (Nat × String)) (g : Genos) (n : String),
      (∀ p ∈ ps, n ≠ p.2) →
      (ps.foldl (appendGT parts gtIdx) g) n = g n
  | [], _, _, _ => rfl
  | p :: ps, g, n, h => by
    rw [List.foldl_cons,
      foldl_appendGT_ne parts gtIdx ps _ n
        (fun q hq => h q (List.mem_cons_of_mem p hq))]
    exact appendGT_ne_key parts gtIdx g p n (h p (List.mem_cons_self p ps))

lemma foldl_appendGT_len (parts : List String) (gtIdx : Nat) :
    ∀ (ps : List (Nat × String)) (g : Genos),
      (ps.map Prod.snd).Nodup →
      (∀ p ∈ ps, 9 + p.1 < parts.length
        ∧ gtIdx < (pySplitSep ':' (parts.getD (9 + p.1) "")).length) →
      ∀ p ∈ ps,
        ((ps.foldl (appendGT parts gtIdx) g) p.2).length = (g p.2).length + 1
  | [], _, _, _, p, hp => absurd hp (List.not_mem_nil p)
  | q :: ps, g, hnd, hall, p, hp => by
    rw [List.map_cons, List.nodup_cons] at hnd
    rw [List.foldl_cons]
    rcases List.mem_cons.1 hp with heq | hmem
    · subst heq
      rw [foldl_appendGT_ne parts gtIdx ps _ p.2
        (fun r hr he => hnd.1 (he ▸ List.mem_map_of_mem Prod.snd hr))]
      obtain ⟨h1, h2⟩ := hall p (List.mem_cons_self p ps)
      rw [appendGT_hit parts gtIdx g p h1 h2]
      simp
    · rw [foldl_appendGT_len parts gtIdx ps (appendGT parts gtIdx g q) hnd.2
        (fun r hr => hall r (List.mem_cons_of_mem q hr)) p hmem,
        appendGT_ne_key parts gtIdx g q p.2
          (fun he => hnd.1 (he ▸ List.mem_map_of_mem Prod.snd hmem))]

lemma dataStep_nil_samples (g : Genos) (l : String) : dataStep [] g l = g := by
  unfold dataStep
  by_cases h1 : (pySplitSep '\t' l).length < 9
  · rw [if_pos h1]
  · rw [if_neg h1]
    by_cases h2 : ¬ (pySplitSep ':' ((pySplitSep '\t' l).getD 8 "")).contains "GT"
    · rw [if_pos h2]
    · rw [if_neg h2]
      rfl

lemma parse_fold_no_header (path : String) :
    ∀ (ls : List String) (st : VcfState),
      (∀ l ∈ ls, pyStartsWith (pyStrip l) "#CHROM" = false) →
      ∃ g', ls.foldlM (parse_vcf_line path) st = .ok (st.1, g')
        ∧ (st.1.Nodup → (∀ l ∈ ls, uniformLine st.1 l = true) →
            ∀ k, (∀ s ∈ st.1, (st.2 s).length = k) →
              ∃ k', ∀ s ∈ st.1, (g' s).length = k')
  | [], st, _ =>
    ⟨st.2, rfl, fun _ _ k hk => ⟨k, hk⟩⟩
  | l :: ls, st, hh => by
    have hhl := hh l (List.mem_cons_self l ls)
    have hhls : ∀ l' ∈ ls, pyStartsWith (pyStrip l') "#CHROM" = false :=
      fun l' hl' => hh l' (List.mem_cons_of_mem l hl')
    rw [List.foldlM_cons]
    unfold parse_vcf_line
    rw [if_neg (by rw [hhl]; exact Bool.false_ne_true)]
    by_cases hdata : ¬ pyStartsWith (pyStrip l) "#" ∧ pyStrip l ≠ ""
    · rw [if_pos hdata]
      simp only [exceptBind_ok]
      obtain ⟨g', hfold, hinv⟩ := parse_fold_no_header path ls
        (st.1, dataStep st.1 st.2 (pyStrip l)) hhls
      refine ⟨g', hfold, ?_⟩
      intro hnd huni k hk
      have hul := huni l (List.mem_cons_self l ls)
      unfold uniformLine at hul
      rw [if_neg (by rw [hhl]; exact Bool.false_ne_true), if_pos hdata] at hul
      have hstep : ∃ k2, ∀ s ∈ st.1,
          (dataStep st.1 st.2 (pyStrip l) s).length = k2 := by
        unfold dataStep
        by_cases hp9 : (pySplitSep '\t' (pyStrip l)).length < 9
        · rw [if_pos hp9]; exact ⟨k, hk⟩
        · rw [if_neg hp9]
          by_cases hgt : ¬ (pySplitSep ':'
              ((pySplitSep '\t' (pyStrip l)).getD 8 "")).contains "GT"
          · rw [if_pos hgt]; exact ⟨k, hk⟩
          · rw [if_neg hgt]
            rw [if_neg hp9, if_neg hgt] at hul
            refine ⟨k + 1, fun s hs => ?_⟩
            obtain ⟨p, hp, hps⟩ : ∃ p ∈ st.1.enum, p.2 = s := by
              have hs' : s ∈ st.1.enum.map Prod.snd := by
                rw [List.enum_map_snd]; exact hs
              obtain ⟨p, hp', he⟩ := List.mem_map.1 hs'
              exact ⟨p, hp', he⟩
            have hall : ∀ p' ∈ st.1.enum,
                9 + p'.1 < (pySplitSep '\t' (pyStrip l)).length
                ∧ pyIndex (pySplitSep ':'
                    ((pySplitSep '\t' (pyStrip l)).getD 8 "")) "GT"
                  < (pySplitSep ':'
                      ((pySplitSep '\t' (pyStrip l)).getD (9 + p'.1) "")).length := by
              intro p' hp'
              have := List.all_eq_true.1 hul p' hp'
              simp only [Bool.and_eq_true, decide_eq_true_eq] at this
              exact this
            rw [← hps]
            rw [foldl_appendGT_len _ _ st.1.enum st.2
              (by rw [List.enum_map_snd]; exact hnd) hall p hp]
            rw [hk p.2 (by rw [← List.enum_map_snd st.1]
                           exact List.mem_map_of_mem Prod.snd hp)]
      obtain ⟨k2, hk2⟩ := hstep
      exact hinv hnd (fun l' hl' => huni l' (List.mem_cons_of_mem l hl')) k2 hk2
    · rw [if_neg hdata]
      simp only [exceptBind_ok]
      obtain ⟨g', hfold, hinv⟩ := parse_fold_no_header path ls st hhls
      exact ⟨g', hfold,
        fun hnd huni k hk =>
          hinv hnd (fun l' hl' => huni l' (List.mem_cons_of_mem l hl')) k hk⟩

lemma parse_vcf_line_header (path : String) (st : VcfState) (l : String)
    (hh : pyStartsWith (pyStrip l) "#CHROM" = true)
    (hp : ¬ (pySplitSep '\t' (pyStrip l)).length < 9) :
    parse_vcf_line path st l
      = .ok ((pySplitSep '\t' (pyStrip l)).drop 9,
          fun n => if ((pySplitSep '\t' (pyStrip l)).drop 9).contains n then []
            else st.2 n) := by
  unfold parse_vcf_line
  rw [if_pos hh, if_neg hp]

lemma parse_vcf_line_header_err (path : String) (st : VcfState) (l : String)
    (hh : pyStartsWith (pyStrip l) "#CHROM" = true)
    (hp : (pySplitSep '\t' (pyStrip l)).length < 9) :
    parse_vcf_line path st l
      = .error (SCATPipelineError.invalid_vcf path
          "invalid header: insufficient columns") := by
  unfold parse_vcf_line
  rw [if_pos hh, if_pos hp]

lemma parse_vcf_line_data (path : String) (st : VcfState) (l : String)
    (hh : ¬ pyStartsWith (pyStrip l) "#CHROM" = true)
    (hd : ¬ pyStartsWith (pyStrip l) "#" = true ∧ pyStrip l ≠ "") :
    parse_vcf_line path st l = .ok (st.1, dataStep st.1 st.2 (pyStrip l)) := by
  unfold parse_vcf_line
  rw [if_neg hh, if_pos hd]

lemma parse_vcf_line_skip (path : String) (st : VcfState) (l : String)
    (hh : ¬ pyStartsWith (pyStrip l) "#CHROM" = true)
    (hd : ¬ (¬ pyStartsWith (pyStrip l) "#" = true ∧ pyStrip l ≠ "")) :
    parse_vcf_line path st l = .ok st := by
  unfold parse_vcf_line
  rw [if_neg hh, if_neg hd]

lemma fold_with_headers (path : String) :
    ∀ (ls : List String) (g0 : Genos) (st' : VcfState),
      (ls.filter fun l => pyStartsWith (pyStrip l) "#CHROM").length ≤ 1 →
      ls.foldlM (parse_vcf_line path) (([], g0) : VcfState) = .ok st' →
      st'.1.Nodup →
      (∀ l ∈ ls, uniformLine st'.1 l = true) →
      ∃ k, ∀ s ∈ st'.1, (st'.2 s).length = k
  | [], g0, st', _, hfold, _, _ => by
    have hst : ((([], g0) : VcfState)) = st' := by
      have h : (Except.ok (([], g0) : VcfState) :
          Except SCATPipelineError VcfState) = .ok st' := hfold
      simpa using h
    rw [← hst]
    exact ⟨0, fun s hs => absurd hs (List.not_mem_nil s)⟩
  | l :: ls, g0, st', hone, hfold, hnd, huni => by
    rw [List.foldlM_cons] at hfold
    by_cases hh : pyStartsWith (pyStrip l) "#CHROM" = true
    · by_cases hp : (pySplitSep '\t' (pyStrip l)).length < 9
      · rw [parse_vcf_line_header_err path _ l hh hp] at hfold
        simp only [exceptBind_error] at hfold
        exact absurd hfold (by simp)
      · rw [parse_vcf_line_header path _ l hh hp] at hfold
        simp only [exceptBind_ok] at hfold
        have hnone : ∀ l' ∈ ls, pyStartsWith (pyStrip l') "#CHROM" = false := by
          have hfe : (ls.filter fun l' => pyStartsWith (pyStrip l') "#CHROM") = [] := by
            rw [List.filter_cons, if_pos hh] at hone
            simp only [List.length_cons] at hone
            exact List.length_eq_zero.1 (by omega)
          intro l' hl'
          by_contra hc
          simp only [Bool.not_eq_false] at hc
          have hmem : l' ∈ ls.filter fun l' => pyStartsWith (pyStrip l') "#CHROM" :=
            List.mem_filter.2 ⟨hl', hc⟩
          rw [hfe] at hmem
          exact List.not_mem_nil l' hmem
        obtain ⟨g', hfold', hinv⟩ := parse_fold_no_header path ls
          (((pySplitSep '\t' (pyStrip l)).drop 9,
            fun n => if ((pySplitSep '\t' (pyStrip l)).drop 9).contains n then []
              else g0 n) : VcfState) hnone
        rw [hfold'] at hfold
        have hst : (((pySplitSep '\t' (pyStrip l)).drop 9, g') : VcfState) = st' := by
          simpa using hfold
        rw [← hst] at hnd huni ⊢
        refine hinv hnd (fun l' hl' => huni l' (List.mem_cons_of_mem l hl')) 0 ?_
        intro s hs
        have hc : ((pySplitSep '\t' (pyStrip l)).drop 9).contains s = true := by
          exact List.elem_iff.2 hs
        show (if ((pySplitSep '\t' (pyStrip l)).drop 9).contains s then ([] : List (Int × Int))
          else g0 s).length = 0
        rw [if_pos hc]
        rfl
    · have hh0 : pyStartsWith (pyStrip l) "#CHROM" = false :=
        Bool.eq_false_iff.2 hh
      have hone' : (ls.filter fun l' =>
          pyStartsWith (pyStrip l') "#CHROM").length ≤ 1 := by
        rw [List.filter_cons, if_neg (by rw [hh0]; exact Bool.false_ne_true)] at hone
        exact hone
      by_cases hdata : ¬ pyStartsWith (pyStrip l) "#" = true ∧ pyStrip l ≠ ""
      · rw [parse_vcf_line_data path _ l hh hdata] at hfold
        simp only [exceptBind_ok] at hfold
        rw [show dataStep ([] : List String) g0 (pyStrip l) = g0 from
          dataStep_nil_samples g0 (pyStrip l)] at hfold
        exact fold_with_headers path ls g0 st' hone' hfold hnd
          (fun l' hl' => huni l' (List.mem_cons_of_mem l hl'))
      · rw [parse_vcf_line_skip path _ l hh hdata] at hfold
        simp only [exceptBind_ok] at hfold
        exact fold_with_headers path ls g0 st' hone' hfold hnd
          (fun l' hl' => huni l' (List.mem_cons_of_mem l hl'))

/-- C9 (amended): for every genotype-call file the parser accepts that has
at most one header line, no duplicate sample names, and only uniform lines
— lines the sample loop treats alike for every sample, in particular every
retained data line supplying a `GT`-bearing column for every sample — all
samples in the returned mapping have genotype sequences of equal length, so
the converter's single locus-count comparison covers every reference
sample.  The unamended claim is false: a data line with at least 9 columns
but fewer sample columns than samples is skipped per-sample with a warning,
leaving unequal lengths in an accepted file (see the counterexample). -/
theorem c9_uniform_locus_counts (lines : List String) (path : String)
    (hok : vcfOk lines path = true)
    (hnd : (vcfSamples lines path).Nodup)
    (hone : (lines.filter fun l => pyStartsWith (pyStrip l) "#CHROM").length ≤ 1)
    (huni : ∀ l ∈ lines, uniformLine (vcfSamples lines path) l = true) :
    ∀ s₁ ∈ vcfSamples lines path, ∀ s₂ ∈ vcfSamples lines path,
      (vcfGenosOf lines path s₁).length = (vcfGenosOf lines path s₂).length := by
  unfold vcfOk at hok
  cases hpv : parse_vcf lines path with
  | error e =>
    rw [hpv] at hok
    simp [Except.isOk, Except.toBool] at hok
  | ok st =>
    have hsam : vcfSamples lines path = st.1 := by
      unfold vcfSamples; rw [hpv]
    have hg : ∀ n, vcfGenosOf lines path n = st.2 n := by
      intro n; unfold vcfGenosOf; rw [hpv]
    unfold parse_vcf at hpv
    cases hfold : lines.foldlM (parse_vcf_line path)
        (([], fun _ => []) : VcfState) with
    | error e =>
      rw [hfold] at hpv
      simp only [exceptBind_error] at hpv
      exact absurd hpv (by simp)
    | ok st0 =>
      rw [hfold] at hpv
      simp only [exceptBind_ok] at hpv
      by_cases hempty : st0.1 = []
      · rw [if_pos hempty] at hpv
        exact absurd hpv (by simp)
      · rw [if_neg hempty] at hpv
        have hst : st0 = st := by simpa using hpv
        subst hst
        obtain ⟨k, hkk⟩ := fold_with_headers path lines (fun _ => []) st0 hone
          hfold (hsam ▸ hnd) (fun l hl => hsam ▸ huni l hl)
        intro s₁ h₁ s₂ h₂
        rw [hg s₁, hg s₂, hkk s₁ (hsam ▸ h₁), hkk s₂ (hsam ▸ h₂)]

/-- C9 counterexample: the parser accepts this file — a header naming `S1`
and `S2` followed by a 10-column data line that carries a genotype for `S1`
but no column for `S2` — yet the two samples end with different locus
counts (1 versus 0). -/
theorem c9_counterexample :
    vcfOk ["#CHROM\tPOS\tID\tREF\tALT\tQUAL\tFILTER\tINFO\tFORMAT\tS1\tS2",
        "1\t2\t.\tA\tC\t.\t.\t.\tGT\t0/0"] "f.vcf" = true
    ∧ vcfSamples ["#CHROM\tPOS\tID\tREF\tALT\tQUAL\tFILTER\tINFO\tFORMAT\tS1\tS2",
        "1\t2\t.\tA\tC\t.\t.\t.\tGT\t0/0"] "f.vcf" = ["S1", "S2"]
    ∧ (vcfGenosOf ["#CHROM\tPOS\tID\tREF\tALT\tQUAL\tFILTER\tINFO\tFORMAT\tS1\tS2",
        "1\t2\t.\tA\tC\t.\t.\t.\tGT\t0/0"] "f.vcf" "S1").length = 1
    ∧ (vcfGenosOf ["#CHROM\tPOS\tID\tREF\tALT\tQUAL\tFILTER\tINFO\tFORMAT\tS1\tS2",
        "1\t2\t.\tA\tC\t.\t.\t.\tGT\t0/0"] "f.vcf" "S2").length = 0
    ∧ (1 : Nat) ≠ 0 := by
  decide

/-- Witness for C9 at a concrete uniform two-sample file. -/
theorem c9_uniform_locus_counts_witness :
    (vcfGenosOf ["#CHROM\tPOS\tID\tREF\tALT\tQUAL\tFILTER\tINFO\tFORMAT\tS1\tS2",
        "1\t1\t.\tA\tC\t.\t.\t.\tGT\t0/0\t0/1"] "f.vcf" "S1").length
      = (vcfGenosOf ["#CHROM\tPOS\tID\tREF\tALT\tQUAL\tFILTER\tINFO\tFORMAT\tS1\tS2",
          "1\t1\t.\tA\tC\t.\t.\t.\tGT\t0/0\t0/1"] "f.vcf" "S2").length :=
  c9_uniform_locus_counts
    ["#CHROM\tPOS\tID\tREF\tALT\tQUAL\tFILTER\tINFO\tFORMAT\tS1\tS2",
     "1\t1\t.\tA\tC\t.\t.\t.\tGT\t0/0\t0/1"] "f.vcf"
    (by decide) (by decide) (by decide) (by decide)
    "S1" (by decide) "S2" (by decide)

end CcgPlatform
